import Mathlib

/-!
Verification development for the FluffyBall sketch (`fluffy.js`).

The sketch deforms a sphere with a noise-driven vertex shader, shades it in a
fragment shader, accumulates a decaying 2D impulse from pointer drags, and
rebuilds the mesh from curated random parameters on GUI events.  We embed the
shader arithmetic over the reals (GLSL floats read as exact reals), the frame
loop and parameter generator over the rationals, and prove the spec's claims
about them.
-/

open Real

/-- A 3-component vector of reals, modelling a GLSL `vec3`. -/
structure Vec3 where
  x : ℝ
  y : ℝ
  z : ℝ

/-- Componentwise vector addition, modelling GLSL `+` on `vec3`. -/
def vadd (a b : Vec3) : Vec3 := ⟨a.x + b.x, a.y + b.y, a.z + b.z⟩

/-- Scalar multiplication, modelling GLSL `float * vec3`. -/
def vscale (c : ℝ) (v : Vec3) : Vec3 := ⟨c * v.x, c * v.y, c * v.z⟩

/-- GLSL `mix(a, b, t) = a*(1-t) + b*t`, componentwise. -/
def mix3 (a b : Vec3) (t : ℝ) : Vec3 :=
  ⟨a.x * (1 - t) + b.x * t, a.y * (1 - t) + b.y * t, a.z * (1 - t) + b.z * t⟩

/-- GLSL two-argument `atan(y, x)` (atan2), modelled as the argument of the
complex number `x + y i`, which lies in `(-π, π]` like atan2 does. -/
noncomputable def atan2 (y x : ℝ) : ℝ := Complex.arg (x + y * Complex.I)

lemma cos_atan2_mul_sqrt (y x : ℝ) :
    Real.cos (atan2 y x) * Real.sqrt (x ^ 2 + y ^ 2) = x := by
  by_cases h : (x : ℂ) + y * Complex.I = 0
  · have hx : x = 0 := by
      have := congrArg Complex.re h
      simpa using this
    have hy : y = 0 := by
      have := congrArg Complex.im h
      simpa using this
    simp [hx, hy]
  · have habs : Complex.abs ((x : ℂ) + y * Complex.I) = Real.sqrt (x ^ 2 + y ^ 2) :=
      Complex.abs_add_mul_I x y
    have hcos := Complex.cos_arg h
    have hre : ((x : ℂ) + y * Complex.I).re = x := by simp
    have habs_ne : Complex.abs ((x : ℂ) + y * Complex.I) ≠ 0 := by
      simpa using (Complex.abs.ne_zero h)
    rw [atan2, hcos, hre, ← habs]
    field_simp

lemma sin_atan2_mul_sqrt (y x : ℝ) :
    Real.sin (atan2 y x) * Real.sqrt (x ^ 2 + y ^ 2) = y := by
  by_cases h : (x : ℂ) + y * Complex.I = 0
  · have hx : x = 0 := by
      have := congrArg Complex.re h
      simpa using this
    have hy : y = 0 := by
      have := congrArg Complex.im h
      simpa using this
    simp [hx, hy]
  · have habs : Complex.abs ((x : ℂ) + y * Complex.I) = Real.sqrt (x ^ 2 + y ^ 2) :=
      Complex.abs_add_mul_I x y
    have hsin := Complex.sin_arg ((x : ℂ) + y * Complex.I)
    have him : ((x : ℂ) + y * Complex.I).im = y := by simp
    have habs_ne : Complex.abs ((x : ℂ) + y * Complex.I) ≠ 0 := by
      simpa using (Complex.abs.ne_zero h)
    rw [atan2, hsin, him, ← habs]
    field_simp

/-!
## Vertex shader: the Displacement Model

Embedding of the `main` of `vertexShader` (`fluffy.js` lines 41-70).  The 4D
simplex noise `noise` comes from an external GLSL library; the shader only
uses that it is a pure function of its arguments, so the model takes it as a
function argument `noise4`.  The uniforms `u_spikeCount`, `u_spikeLength`,
`u_impulse`, `u_sceneRotationY` and the vertex attributes `position` /
`normal` are the remaining inputs.
-/

/-- All inputs of one vertex-shader invocation. -/
structure ShaderIn where
  noise4 : Vec3 → ℝ → ℝ
  spikeCount : ℝ
  spikeLength : ℝ
  position : Vec3
  normal : Vec3
  impulse : ℝ × ℝ
  sceneRotationY : ℝ

/-- `uvNoise = noise(vec4(position.xyz*u_spikeCount,10.0)) * u_spikeLength +
(u_spikeLength - 1.0)` (line 45). -/
noncomputable def uvNoise (i : ShaderIn) : ℝ :=
  i.noise4 (vscale i.spikeCount i.position) 10 * i.spikeLength + (i.spikeLength - 1)

/-- The position after the radial extrusion `pos += normal * (uvNoise*0.39)`
(lines 46-47), applied to every vertex. -/
noncomputable def extrudedPos (i : ShaderIn) : Vec3 :=
  vadd i.position (vscale (uvNoise i * 0.39) i.normal)

/-- `intensity = uvNoise * 5.0` (line 51). -/
noncomputable def intensity (i : ShaderIn) : ℝ := uvNoise i * 5

/-- `angleH = atan(pos.z, pos.x)` (line 55). -/
noncomputable def angleH (i : ShaderIn) : ℝ := atan2 (extrudedPos i).z (extrudedPos i).x

/-- `hLength = length(vec2(pos.x, pos.z))` (line 56). -/
noncomputable def hLength (i : ShaderIn) : ℝ :=
  Real.sqrt ((extrudedPos i).x ^ 2 + (extrudedPos i).z ^ 2)

/-- `zPos2 = sin(angleH + impulseX*intensity - u_sceneRotationY) * hLength`
(line 62): the scene-rotation-corrected z-coordinate. -/
noncomputable def zPos2 (i : ShaderIn) : ℝ :=
  Real.sin (angleH i + i.impulse.1 * intensity i - i.sceneRotationY) * hLength i

/-- `angleV = atan(zPos2, pos.y) - u_impulse.y * intensity` (line 63). -/
noncomputable def angleV (i : ShaderIn) : ℝ :=
  atan2 (zPos2 i) (extrudedPos i).y - i.impulse.2 * intensity i

/-- `vLength = length(vec2(pos.y, zPos2))` (line 64). -/
noncomputable def vLength (i : ShaderIn) : ℝ :=
  Real.sqrt ((extrudedPos i).y ^ 2 + zPos2 i ^ 2)

/-- The displaced vertex position computed by the vertex shader (lines 43-67):
the radial extrusion always, and — only when `uvNoise > 0` — the swirl, whose
final components are `xpos = cos(angleH+impulseX*intensity) * hLength`,
`yPos = cos(angleV) * vLength` and `zPos = sin(angleH+impulseX*intensity) *
hLength` (lines 57, 58, 65, 66). -/
noncomputable def displacedPos (i : ShaderIn) : Vec3 :=
  if uvNoise i > 0 then
    ⟨Real.cos (angleH i + i.impulse.1 * intensity i) * hLength i,
     Real.cos (angleV i) * vLength i,
     Real.sin (angleH i + i.impulse.1 * intensity i) * hLength i⟩
  else extrudedPos i

/-!
## Fragment shader: the Shading Model

Embedding of the `main` of `fragmentShader` (`fluffy.js` lines 84-92).  The
3D simplex noise is again an external pure function, taken as the argument
`noise3` (applied to the components of `vec3(vUv*6.0, u_time*0.02)`).
Output is the `gl_FragColor` rgb triple together with its alpha.
-/

/-- The fragment shader output (lines 84-92): `sine = sin(vUv.x * 3.14)`;
`n = noise3(vec3(vUv*6.0, u_time*0.02)) * 0.5 + 0.5`;
`darkness = uvNoise / u_spikeLength + 1.0`; `col = mix(u_colorA, u_colorB, n)`
scaled by `(sine * 0.6 + 0.4) * darkness`; alpha 1. -/
noncomputable def fragMain (noise3 : ℝ → ℝ → ℝ → ℝ) (vUv : ℝ × ℝ)
    (uvNoiseV time : ℝ) (colorA colorB : Vec3) (spikeLength : ℝ) : Vec3 × ℝ :=
  let sine := Real.sin (vUv.1 * 3.14)
  let n := noise3 (vUv.1 * 6) (vUv.2 * 6) (time * 0.02) * 0.5 + 0.5
  let darkness := uvNoiseV / spikeLength + 1
  let col := mix3 colorA colorB n
  (vscale ((sine * 0.6 + 0.4) * darkness) col, 1)

/-- The Shading Model as the spec words it, with the banding factor
`sine = sin(uv.x * π)`: `n = noise3D(uv*6.0, time*0.02) * 0.5 + 0.5`;
`color = mix(A, B, n)`; `darkness = uvNoise / spikeLength + 1.0`;
`finalColor = color * (sine*0.6 + 0.4) * darkness`, opaque alpha. -/
noncomputable def fragSpecPi (noise3 : ℝ → ℝ → ℝ → ℝ) (vUv : ℝ × ℝ)
    (uvNoiseV time : ℝ) (colorA colorB : Vec3) (spikeLength : ℝ) : Vec3 × ℝ :=
  let sine := Real.sin (vUv.1 * Real.pi)
  let n := noise3 (vUv.1 * 6) (vUv.2 * 6) (time * 0.02) * 0.5 + 0.5
  let darkness := uvNoiseV / spikeLength + 1
  let col := mix3 colorA colorB n
  (vscale ((sine * 0.6 + 0.4) * darkness) col, 1)

/-- The Shading Model as the spec words it, amended so the banding factor is
`sin(uv.x * 3.14)` (the literal constant the shader uses) instead of
`sin(uv.x * π)`. -/
noncomputable def fragSpecAmended (noise3 : ℝ → ℝ → ℝ → ℝ) (vUv : ℝ × ℝ)
    (uvNoiseV time : ℝ) (colorA colorB : Vec3) (spikeLength : ℝ) : Vec3 × ℝ :=
  let sine := Real.sin (vUv.1 * 3.14)
  let n := noise3 (vUv.1 * 6) (vUv.2 * 6) (time * 0.02) * 0.5 + 0.5
  let darkness := uvNoiseV / spikeLength + 1
  let col := mix3 colorA colorB n
  (vscale ((sine * 0.6 + 0.4) * darkness) col, 1)

/-!
## Impulse/Input Tracker

Embedding of `onMouseMove` / `onMouseDown` / `onMouseUp` (`fluffy.js` lines
200-218).  Positions are already normalized to `[-1, 1]` (the claims speak of
normalized positions; `getInputPosition` does the normalization separately).
JavaScript `%` is the remainder that truncates the quotient toward zero, so
we model it explicitly.
-/

/-- JavaScript truncation toward zero, as used by the `%` operator. -/
noncomputable def jsTrunc (x : ℝ) : ℤ := if 0 ≤ x then ⌊x⌋ else ⌈x⌉

/-- JavaScript `a % b`: the remainder `a - b * trunc(a / b)` (sign of the
dividend). -/
noncomputable def jsMod (a b : ℝ) : ℝ := a - b * jsTrunc (a / b)

/-- `direction = ((scene.rotation.x + Math.PI / 2) / Math.PI) % 2 > 1 ? -1 : 1`
(line 206). -/
noncomputable def direction (rotX : ℝ) : ℝ :=
  if jsMod ((rotX + Real.pi / 2) / Real.pi) 2 > 1 then -1 else 1

/-- The mutable state read and written by the pointer handlers: `isMouseDown`,
`mouseList`, `currentImpulse` (lines 180-182) and the scene x-rotation the
direction test reads. -/
structure PointerState where
  isMouseDown : Bool
  mouseList : List (ℝ × ℝ)
  impulse : ℝ × ℝ
  rotX : ℝ

/-- `onMouseMove` (lines 200-210) at an already-normalized position `(x, y)`:
when dragging, read the last anchor (or the current point if the list is
empty), push the current point, and accumulate
`impulse.x += direction * (x - lastX) * 0.5`, `impulse.y -= (y - lastY) * 0.5`. -/
noncomputable def onMouseMove (x y : ℝ) (st : PointerState) : PointerState :=
  if st.isMouseDown then
    let lastMouse := st.mouseList.getLastD (x, y)
    let dir := direction st.rotX
    { st with
      mouseList := st.mouseList ++ [(x, y)],
      impulse := (st.impulse.1 + dir * (x - lastMouse.1) * 0.5,
                  st.impulse.2 - (y - lastMouse.2) * 0.5) }
  else st

/-- `onMouseDown` (lines 211-215): start dragging and reset the anchor list
to the current normalized position. -/
noncomputable def onMouseDown (x y : ℝ) (st : PointerState) : PointerState :=
  { st with isMouseDown := true, mouseList := [(x, y)] }

/-- `onMouseUp` (lines 216-218): stop dragging; the impulse is untouched. -/
def onMouseUp (st : PointerState) : PointerState :=
  { st with isMouseDown := false }

/-!
## Parameter Generator and frame loop

`createDefaults` (lines 100-116) draws curated random parameters through the
`canvas-sketch-util/random` helpers.  That library is an external dependency.
Modelled from the spec: a seeded pseudo-random stream — `setSeed` seeds (or
unseeds) the stream and resets it, each draw consumes the next stream value
in `[0, 1)`, `pick` indexes a list by `floor(value * length)` and `range`
maps a value affinely onto `[lo, hi)`.  The concrete stream values are an
abstract function of the seed and the position in the stream.
-/

/-- Modelled from the spec: the pseudo-random value stream of the external
`canvas-sketch-util/random` library.  `value s n` is the `n`-th value drawn
after seeding with `s` (`none` is the unseeded stream); values lie in
`[0, 1)`. -/
structure RandomLib where
  value : Option ℕ → ℕ → ℚ
  value_nonneg : ∀ s n, 0 ≤ value s n
  value_lt_one : ∀ s n, value s n < 1

/-- The stream position of the random library: current seed and how many
values have been drawn since seeding. -/
structure RState where
  seed : Option ℕ
  counter : ℕ

/-- `random.setSeed(s)`: install a seed (or `none` for unseeded) and reset
the stream. -/
def rngSetSeed (s : Option ℕ) (_ : RState) : RState := ⟨s, 0⟩

/-- Draw the next stream value. -/
def rngNext (lib : RandomLib) (st : RState) : ℚ × RState :=
  (lib.value st.seed st.counter, ⟨st.seed, st.counter + 1⟩)

/-- `random.pick(list)`: index the list by `floor(value * length)`. -/
def rngPick {α : Type} [Inhabited α] (lib : RandomLib) (l : List α) (st : RState) :
    α × RState :=
  let p := rngNext lib st
  (l.getD (⌊p.1 * l.length⌋).toNat default, p.2)

/-- `random.range(lo, hi)`: map the next value affinely onto `[lo, hi)`. -/
def rngRange (lib : RandomLib) (lo hi : ℚ) (st : RState) : ℚ × RState :=
  let p := rngNext lib st
  (p.1 * (hi - lo) + lo, p.2)

/-- A palette: an ordered list of colors (hex strings) from the external
`nice-color-palettes` library. -/
abbrev Palette := List String

/-- The shared mutable settings record `data` (lines 8-15). -/
structure SketchData where
  shouldUpdate : Bool
  shouldReset : Bool
  palette : Palette
  spikeLength : ℚ
  spikeDetail : ℚ

/-- The curated color seed pool (line 102). -/
def colorSeeds : List ℕ :=
  [495948, 234144, 382666, 946739, 253862, 729250, 12290, 958027, 277064, 339463]

/-- The curated spike-detail seed pool (line 103). -/
def spikeSeeds : List ℕ := [614884, 383036, 191802, 967721, 384540, 111465]

/-- The curated spike-length seed pool (line 104). -/
def spikeLengthSeeds : List ℕ := [533299, 122798]

/-- `createDefaults` (lines 100-115): pick a seed from the spike pool, seed
the stream, draw `spikeDetail` from `[1.35, 40)`; unseed, pick a seed from
the spike-length pool, seed, draw `spikeLength` from `[1.0, 1.4)`; unseed,
pick a seed from the color pool, seed, pick a palette.  `palettes` is the
external palette library. -/
def createDefaults (lib : RandomLib) (palettes : List Palette)
    (d : SketchData) (st : RState) : SketchData × RState :=
  let p1 := rngPick lib spikeSeeds st
  let st2 := rngSetSeed (some p1.1) p1.2
  let q1 := rngRange lib 1.35 40 st2
  let st4 := rngSetSeed none q1.2
  let p2 := rngPick lib spikeLengthSeeds st4
  let st6 := rngSetSeed (some p2.1) p2.2
  let q2 := rngRange lib 1.0 1.4 st6
  let st8 := rngSetSeed none q2.2
  let p3 := rngPick lib colorSeeds st8
  let st10 := rngSetSeed (some p3.1) p3.2
  let q3 := rngPick lib palettes st10
  ({ d with spikeDetail := q1.1, spikeLength := q2.1, palette := q3.1 }, q3.2)

/-- The three seeds `createDefaults` picks from its pools, in draw order:
spike-detail seed, spike-length seed, color seed. -/
def pickedSeeds (lib : RandomLib) (st : RState) : ℕ × ℕ × ℕ :=
  let p1 := rngPick lib spikeSeeds st
  let st2 := rngSetSeed (some p1.1) p1.2
  let q1 := rngRange lib 1.35 40 st2
  let st4 := rngSetSeed none q1.2
  let p2 := rngPick lib spikeLengthSeeds st4
  let st6 := rngSetSeed (some p2.1) p2.2
  let q2 := rngRange lib 1.0 1.4 st6
  let st8 := rngSetSeed none q2.2
  let p3 := rngPick lib colorSeeds st8
  (p1.1, p2.1, p3.1)

/-- The uniform values baked into a mesh at `createMesh` (lines 155-170):
`u_colorA = palette[0]`, `u_colorB = palette[3]`, `u_spikeCount = spikeDetail`,
`u_spikeLength = spikeLength`. -/
structure MeshUniforms where
  colorA : String
  colorB : String
  spikeCount : ℚ
  spikeLength : ℚ

/-- The per-sketch state the render callback reads and writes: the settings
record, the random stream, the current mesh (if any) and the impulse /
scene rotation. -/
structure SketchState where
  data : SketchData
  rng : RState
  mesh : Option MeshUniforms
  impulse : ℚ × ℚ
  rotX : ℚ
  rotY : ℚ

/-- `createMesh(reset)` (lines 144-172): when `reset`, re-run
`createDefaults`; then read `spikeDetail`, `spikeLength`, `palette` from the
settings record and build a fresh mesh with those values baked in, replacing
the previous one. -/
def createMesh (lib : RandomLib) (palettes : List Palette) (reset : Bool)
    (st : SketchState) : SketchState :=
  let dr := if reset then createDefaults lib palettes st.data st.rng else (st.data, st.rng)
  { st with
    data := dr.1, rng := dr.2,
    mesh := some ⟨dr.1.palette.getD 0 default, dr.1.palette.getD 3 default,
                  dr.1.spikeDetail, dr.1.spikeLength⟩ }

/-- The `render` callback (lines 260-286): capture `shouldReset` /
`shouldUpdate`; if `shouldReset`, clear both flags and `createMesh(true)`;
if `shouldUpdate` (the captured value), clear it and `createMesh()`; then
decay the impulse by `0.9` componentwise and advance the scene rotation by
the base spin `0.003` plus the decayed impulse. -/
def render (lib : RandomLib) (palettes : List Palette) (st : SketchState) :
    SketchState :=
  let shouldReset := st.data.shouldReset
  let shouldUpdate := st.data.shouldUpdate
  let st1 :=
    if shouldReset then
      createMesh lib palettes true
        { st with data := { st.data with shouldReset := false, shouldUpdate := false } }
    else st
  let st2 :=
    if shouldUpdate then
      createMesh lib palettes false
        { st1 with data := { st1.data with shouldUpdate := false } }
    else st1
  let ix := st2.impulse.1 * 0.9
  let iy := st2.impulse.2 * 0.9
  { st2 with impulse := (ix, iy), rotY := st2.rotY + 0.003 + ix, rotX := st2.rotX + iy }

/-- A concrete instance of the random library, for evaluating the frame loop
at concrete states: every stream value is `0`. -/
def constLib : RandomLib :=
  ⟨fun _ _ => 0, fun _ _ => le_refl 0, fun _ _ => by norm_num⟩

/-- A concrete vertex-shader input for exercising the swirl branch: constant
noise `1`, `spikeCount = spikeLength = 1`, vertex `(0, 0.61, 1)` with normal
`(0, 1, 0)` (so the extruded position is `(0, 1, 1)`), zero impulse and a
scene rotation of `π`. -/
noncomputable def shaderInC1 : ShaderIn :=
  ⟨fun _ _ => 1, 1, 1, ⟨0, 0.61, 1⟩, ⟨0, 1, 0⟩, (0, 0), Real.pi⟩

/-- A concrete vertex-shader input with constant noise `-1` (so `uvNoise < 0`)
and nonzero impulse and scene rotation. -/
noncomputable def shaderInC2 : ShaderIn :=
  ⟨fun _ _ => -1, 1, 1, ⟨1, 0, 0⟩, ⟨1, 0, 0⟩, (0.2, 0.3), 0.7⟩

/-- A concrete vertex-shader input with constant noise `1` (a protruding
vertex) and zero impulse. -/
noncomputable def shaderInC3 : ShaderIn :=
  ⟨fun _ _ => 1, 1, 1, ⟨0, 0.61, 1⟩, ⟨0, 1, 0⟩, (0, 0), 0⟩

/-- The initial value of the settings record (lines 8-15): flags clear, empty
palette, `spikeLength = 1`, `spikeDetail = 0`. -/
def initialData : SketchData := ⟨false, false, [], 1, 0⟩

/-- A concrete sketch state with impulse `(1, 0)` and both flags clear. -/
def stC4 : SketchState := ⟨⟨false, false, [], 1, 0⟩, ⟨none, 0⟩, none, (1, 0), 0, 0⟩

/-- A concrete sketch state with `shouldUpdate` set, `shouldReset` clear, and
a four-color palette. -/
def stC9 : SketchState :=
  ⟨⟨true, false, ["a", "b", "c", "d"], 1.4, 2⟩, ⟨none, 0⟩, none, (0, 0), 0, 0⟩

/-!
## Helper lemmas
-/

lemma Vec3.ext_comp {a b : Vec3} (hx : a.x = b.x) (hy : a.y = b.y) (hz : a.z = b.z) :
    a = b := by
  cases a; cases b; simp_all

-- With zero impulse the swirl branch is the identity on the extruded
-- position: rotating by zero and converting polar forms back cancels.
lemma displacedPos_impulse_zero (i : ShaderIn) (h : i.impulse = (0, 0)) :
    displacedPos i = extrudedPos i := by
  have h1 : i.impulse.1 = 0 := by rw [h]
  have h2 : i.impulse.2 = 0 := by rw [h]
  unfold displacedPos
  split
  · apply Vec3.ext_comp
    · show Real.cos (angleH i + i.impulse.1 * intensity i) * hLength i = _
      rw [h1]
      simpa [angleH, hLength] using
        cos_atan2_mul_sqrt (extrudedPos i).z (extrudedPos i).x
    · show Real.cos (angleV i) * vLength i = _
      rw [angleV, h2]
      simpa [vLength] using
        cos_atan2_mul_sqrt (zPos2 i) (extrudedPos i).y
    · show Real.sin (angleH i + i.impulse.1 * intensity i) * hLength i = _
      rw [h1]
      simpa [angleH, hLength] using
        sin_atan2_mul_sqrt (extrudedPos i).z (extrudedPos i).x
  · rfl

lemma quarter_floor : ⌊(1/4 : ℝ)⌋ = 0 := by
  rw [Int.floor_eq_zero_iff]
  constructor <;> norm_num

lemma jsTrunc_quarter : jsTrunc (1/4) = 0 := by
  rw [jsTrunc, if_pos (by norm_num)]
  exact quarter_floor

lemma jsMod_half : jsMod (1/2) 2 = 1/2 := by
  rw [jsMod]
  norm_num [jsTrunc_quarter]

lemma direction_zero : direction 0 = 1 := by
  rw [direction]
  have h : ((0 : ℝ) + Real.pi / 2) / Real.pi = 1 / 2 := by
    rw [zero_add]
    field_simp
    ring
  rw [h, jsMod_half, if_neg (by norm_num)]

lemma threeq_floor : ⌊(3/4 : ℝ)⌋ = 0 := by
  rw [Int.floor_eq_zero_iff]
  constructor <;> norm_num

lemma jsTrunc_threeq : jsTrunc (3/4) = 0 := by
  rw [jsTrunc, if_pos (by norm_num)]
  exact threeq_floor

lemma jsMod_three_halves : jsMod (3/2) 2 = 3/2 := by
  rw [jsMod]
  norm_num [jsTrunc_threeq]

lemma pi_arg_three_halves : (Real.pi + Real.pi / 2) / Real.pi = 3 / 2 := by
  field_simp
  ring

lemma direction_pi : direction Real.pi = -1 := by
  rw [direction, pi_arg_three_halves, jsMod_three_halves, if_pos (by norm_num)]

-- The frame step decays the impulse componentwise regardless of the
-- rebuild-flag path, since neither mesh rebuild touches the impulse.
lemma render_impulse (lib : RandomLib) (P : List Palette) (st : SketchState) :
    (render lib P st).impulse = (st.impulse.1 * 0.9, st.impulse.2 * 0.9) := by
  cases hR : st.data.shouldReset <;> cases hU : st.data.shouldUpdate <;>
    simp [render, createMesh, hR, hU]

-- The spike-detail draw of `createDefaults` is determined by the seed picked
-- from the spike pool: the stream is reset by `setSeed`, so the draw is the
-- first value of the freshly seeded stream.
lemma createDefaults_spikeDetail (lib : RandomLib) (P : List Palette)
    (d : SketchData) (st : RState) :
    (createDefaults lib P d st).1.spikeDetail =
      lib.value (some (pickedSeeds lib st).1) 0 * (40 - 1.35) + 1.35 := rfl

lemma createDefaults_spikeLength (lib : RandomLib) (P : List Palette)
    (d : SketchData) (st : RState) :
    (createDefaults lib P d st).1.spikeLength =
      lib.value (some (pickedSeeds lib st).2.1) 0 * (1.4 - 1.0) + 1.0 := rfl

lemma createDefaults_palette (lib : RandomLib) (P : List Palette)
    (d : SketchData) (st : RState) :
    (createDefaults lib P d st).1.palette =
      P.getD (⌊lib.value (some (pickedSeeds lib st).2.2) 0 * P.length⌋).toNat default := rfl

/-!
## Claims
-/

/-- Claim C1, counterexample: the claim says the final z-coordinate of a
displaced vertex with `uvNoise > 0` is recomputed from the rotated vertical
polar form as `sin(angleV) * vLength`.  At the concrete input `shaderInC1`
(extruded position `(0, 1, 1)`, zero impulse, scene rotation `π`) the shader
outputs `z = 1` while `sin(angleV) * vLength = -1`. -/
theorem C1_counterexample :
    (displacedPos shaderInC1).z ≠ Real.sin (angleV shaderInC1) * vLength shaderInC1 := by
  have huv : uvNoise shaderInC1 = 1 := by norm_num [uvNoise, shaderInC1, vscale]
  have him1 : shaderInC1.impulse.1 = 0 := rfl
  have him2 : shaderInC1.impulse.2 = 0 := rfl
  have hrot : shaderInC1.sceneRotationY = Real.pi := rfl
  have hext : extrudedPos shaderInC1 = ⟨0, 1, 1⟩ := by
    rw [extrudedPos, huv]
    norm_num [shaderInC1, vadd, vscale]
  have hH : angleH shaderInC1 = Real.pi / 2 := by
    rw [angleH, hext]
    show atan2 1 0 = _
    rw [atan2]
    have h0 : ((0 : ℝ) : ℂ) + (1 : ℝ) * Complex.I = Complex.I := by push_cast; ring
    rw [h0, Complex.arg_I]
  have hLen : hLength shaderInC1 = 1 := by
    rw [hLength, hext]
    show Real.sqrt (0 ^ 2 + 1 ^ 2) = 1
    rw [show (0 : ℝ) ^ 2 + 1 ^ 2 = 1 by norm_num, Real.sqrt_one]
  have harg : angleH shaderInC1 + shaderInC1.impulse.1 * intensity shaderInC1 = Real.pi / 2 := by
    rw [hH, him1]; ring
  have hz2 : zPos2 shaderInC1 = -1 := by
    rw [zPos2, harg, hrot, hLen]
    rw [show Real.pi / 2 - Real.pi = -(Real.pi / 2) by ring]
    rw [Real.sin_neg, Real.sin_pi_div_two]
    ring
  have hvL : vLength shaderInC1 = Real.sqrt (1 ^ 2 + (-1) ^ 2) := by
    rw [vLength, hext, hz2]
  have hAV : angleV shaderInC1 = atan2 (-1) 1 := by
    rw [angleV, hz2, hext, him2]
    show atan2 (-1) 1 - 0 * intensity shaderInC1 = atan2 (-1) 1
    ring
  have hRHS : Real.sin (angleV shaderInC1) * vLength shaderInC1 = -1 := by
    rw [hAV, hvL]
    exact sin_atan2_mul_sqrt (-1) 1
  have hpos : uvNoise shaderInC1 > 0 := by rw [huv]; norm_num
  have hLHS : (displacedPos shaderInC1).z = 1 := by
    rw [displacedPos, if_pos hpos]
    show Real.sin (angleH shaderInC1 + shaderInC1.impulse.1 * intensity shaderInC1) *
      hLength shaderInC1 = 1
    rw [harg, hLen, Real.sin_pi_div_two]; ring
  rw [hLHS, hRHS]
  norm_num

/-- Claim C1, amended: for every vertex with `uvNoise > 0`, any impulse and
scene rotation, only the final y-coordinate is recomputed from the rotated
vertical polar form, `y = cos(angleV) * vLength`; the final z-coordinate is
the horizontally rotated one, `z = sin(angleH + impulse.x * intensity) *
hLength`, and is not recomputed from the vertical polar form. -/
theorem C1_amended_thm (i : ShaderIn) (h : uvNoise i > 0) :
    (displacedPos i).y = Real.cos (angleV i) * vLength i ∧
    (displacedPos i).z = Real.sin (angleH i + i.impulse.1 * intensity i) * hLength i := by
  unfold displacedPos
  rw [if_pos h]
  exact ⟨rfl, rfl⟩

/-- Claim C1, witness: the amended theorem applied at the concrete input
`shaderInC1`, whose `uvNoise` is `1 > 0`. -/
theorem C1_witness :
    uvNoise shaderInC1 > 0 ∧
      ((displacedPos shaderInC1).y = Real.cos (angleV shaderInC1) * vLength shaderInC1 ∧
       (displacedPos shaderInC1).z =
         Real.sin (angleH shaderInC1 + shaderInC1.impulse.1 * intensity shaderInC1) *
           hLength shaderInC1) := by
  have h : uvNoise shaderInC1 > 0 := by norm_num [uvNoise, shaderInC1, vscale]
  exact ⟨h, C1_amended_thm shaderInC1 h⟩

/-- Claim C2: for every vertex whose `uvNoise` is `≤ 0`, the Displacement
Model output equals `position + normal * (uvNoise * 0.39)` exactly — no
angular rotation is applied, for every impulse and scene rotation value. -/
theorem C2_no_swirl (i : ShaderIn) (h : uvNoise i ≤ 0) :
    displacedPos i = vadd i.position (vscale (uvNoise i * 0.39) i.normal) := by
  unfold displacedPos
  rw [if_neg (not_lt.mpr h)]
  rfl

/-- Claim C2, witness: the theorem applied at the concrete input `shaderInC2`,
whose `uvNoise` is `-1 ≤ 0` and whose impulse and scene rotation are nonzero. -/
theorem C2_witness :
    uvNoise shaderInC2 ≤ 0 ∧
      displacedPos shaderInC2 =
        vadd shaderInC2.position (vscale (uvNoise shaderInC2 * 0.39) shaderInC2.normal) := by
  have h : uvNoise shaderInC2 ≤ 0 := by norm_num [uvNoise, shaderInC2]
  exact ⟨h, C2_no_swirl shaderInC2 h⟩

/-- Claim C3: for every vertex (protruding or not), if the impulse is `(0,0)`
then the Displacement Model output is the same for any two values of
`sceneRotationY` — with zero impulse the displaced position does not depend
on the scene rotation at all (in exact real arithmetic). -/
theorem C3_zero_impulse_rotation_independent (i : ShaderIn) (r1 r2 : ℝ)
    (h : i.impulse = (0, 0)) :
    displacedPos { i with sceneRotationY := r1 } =
      displacedPos { i with sceneRotationY := r2 } := by
  rw [displacedPos_impulse_zero { i with sceneRotationY := r1 } h,
      displacedPos_impulse_zero { i with sceneRotationY := r2 } h]
  rfl

/-- Claim C3, witness: the theorem applied at the concrete protruding input
`shaderInC3` (whose `uvNoise` is `1 > 0`) with scene rotations `π` and `2`. -/
theorem C3_witness :
    shaderInC3.impulse = (0, 0) ∧
      displacedPos { shaderInC3 with sceneRotationY := Real.pi } =
        displacedPos { shaderInC3 with sceneRotationY := 2 } :=
  ⟨rfl, C3_zero_impulse_rotation_independent shaderInC3 Real.pi 2 rfl⟩

/-- Claim C4: with no input events, one frame step updates the impulse
componentwise by the factor `0.9`; after `k` idle frames the impulse is the
initial impulse times `0.9 ^ k`; and a nonzero starting impulse never becomes
exactly `(0, 0)` in any finite number of frames (in exact arithmetic). -/
theorem C4_decay (lib : RandomLib) (P : List Palette) (st : SketchState) :
    (render lib P st).impulse = (st.impulse.1 * 0.9, st.impulse.2 * 0.9) ∧
    (∀ k : ℕ, ((render lib P)^[k] st).impulse =
      (st.impulse.1 * 0.9 ^ k, st.impulse.2 * 0.9 ^ k)) ∧
    (st.impulse ≠ (0, 0) → ∀ k : ℕ, ((render lib P)^[k] st).impulse ≠ (0, 0)) := by
  have hiter : ∀ k : ℕ, ((render lib P)^[k] st).impulse =
      (st.impulse.1 * 0.9 ^ k, st.impulse.2 * 0.9 ^ k) := by
    intro k
    induction k with
    | zero => simp
    | succ k ih =>
      rw [Function.iterate_succ_apply', render_impulse, ih]
      rw [Prod.mk.injEq]
      constructor <;> ring
  refine ⟨render_impulse lib P st, hiter, ?_⟩
  intro hne k h0
  apply hne
  rw [hiter k, Prod.mk.injEq] at h0
  have h9 : ((0.9 : ℚ)) ^ k ≠ 0 := pow_ne_zero k (by norm_num)
  have h1 : st.impulse.1 = 0 := by
    rcases mul_eq_zero.mp h0.1 with h | h
    · exact h
    · exact absurd h h9
  have h2 : st.impulse.2 = 0 := by
    rcases mul_eq_zero.mp h0.2 with h | h
    · exact h
    · exact absurd h h9
  rw [Prod.ext_iff]
  exact ⟨h1, h2⟩

/-- Claim C4, witness: the theorem applied at the concrete state `stC4` with
impulse `(1, 0) ≠ (0, 0)`: after two idle frames the impulse is still not
`(0, 0)`. -/
theorem C4_witness :
    stC4.impulse ≠ (0, 0) ∧
    ((render constLib [])^[2] stC4).impulse ≠ (0, 0) := by
  have hne : stC4.impulse ≠ (0, 0) := by
    norm_num [stC4, Prod.ext_iff]
  exact ⟨hne, (C4_decay constLib [] stC4).2.2 hne 2⟩

/-- Claim C5, counterexample: the claim says the banding factor is
`sin(uv.x * π)` exactly; the shader uses `sin(uv.x * 3.14)`.  At `uv.x = 1`
(with equal palette colors, zero `uvNoise` and `spikeLength = 1`) the shader
output differs from the spec formula, since `sin(3.14) > 0 = sin(π)`. -/
theorem C5_counterexample :
    fragMain (fun _ _ _ => 0) (1, 0) 0 0 ⟨1, 1, 1⟩ ⟨1, 1, 1⟩ 1 ≠
      fragSpecPi (fun _ _ _ => 0) (1, 0) 0 0 ⟨1, 1, 1⟩ ⟨1, 1, 1⟩ 1 := by
  intro h
  have hx := congrArg (fun p => p.1.x) h
  have hs : 0 < Real.sin 3.14 :=
    Real.sin_pos_of_pos_of_lt_pi (by norm_num) Real.pi_gt_d2
  simp [fragMain, fragSpecPi, mix3, vscale, Real.sin_pi] at hx
  rcases hx with hx | hx
  · exact absurd hx (ne_of_gt hs)
  · norm_num at hx

/-- Claim C5, amended: the Shading Model computes, for every pixel,
`n = noise3D(uv*6.0, time*0.02) * 0.5 + 0.5`, `color = mix(A, B, n)`,
`sine = sin(uv.x * 3.14)` (the literal constant `3.14`, not `π`),
`darkness = uvNoise / spikeLength + 1.0`, and the final color equals
`color * (sine * 0.6 + 0.4) * darkness` with alpha exactly 1. -/
theorem C5_amended_thm (noise3 : ℝ → ℝ → ℝ → ℝ) (vUv : ℝ × ℝ) (uvNoiseV time : ℝ)
    (colorA colorB : Vec3) (spikeLength : ℝ) :
    fragMain noise3 vUv uvNoiseV time colorA colorB spikeLength =
      fragSpecAmended noise3 vUv uvNoiseV time colorA colorB spikeLength := rfl

/-- Claim C6: while dragging, a move event to normalized `(x, y)` with
previous anchor `(lx, ly)` updates the impulse by
`impulse.x += direction * (x - lx) * 0.5` and `impulse.y -= (y - ly) * 0.5`
and advances the anchor to `(x, y)`. -/
theorem C6_drag_update (st : PointerState) (x y lx ly : ℝ)
    (hDown : st.isMouseDown = true)
    (hLast : st.mouseList.getLast? = some (lx, ly)) :
    (onMouseMove x y st).impulse =
      (st.impulse.1 + direction st.rotX * (x - lx) * 0.5,
       st.impulse.2 - (y - ly) * 0.5) ∧
    (onMouseMove x y st).mouseList.getLast? = some (x, y) := by
  have hD : st.mouseList.getLastD (x, y) = (lx, ly) := by
    rw [List.getLastD_eq_getLast?, hLast]
    rfl
  have hmove : onMouseMove x y st =
      { st with mouseList := st.mouseList ++ [(x, y)],
                impulse := (st.impulse.1 + direction st.rotX * (x - lx) * 0.5,
                            st.impulse.2 - (y - ly) * 0.5) } := by
    rw [onMouseMove, if_pos hDown, hD]
  rw [hmove]
  exact ⟨rfl, List.getLast?_concat _⟩

/-- Claim C6, witness: the theorem applied to the concrete scenario — press
at normalized `(0, 0)` with impulse `(0, 0)` and scene `rotationX = 0` (so
`direction = +1`), then one move event to `(0.1, 0)`: the impulse becomes
`(0.05, 0)`. -/
theorem C6_witness :
    (onMouseMove 0.1 0 (onMouseDown 0 0 ⟨false, [(1, 1)], (0, 0), 0⟩)).impulse =
      (0.05, 0) := by
  have h := C6_drag_update (onMouseDown 0 0 ⟨false, [(1, 1)], (0, 0), 0⟩) 0.1 0 0 0
    rfl rfl
  rw [h.1]
  show ((0 : ℝ) + direction 0 * (0.1 - 0) * 0.5, (0 : ℝ) - (0 - 0) * 0.5) = (0.05, 0)
  rw [direction_zero]
  norm_num

/-- Claim C7: the drag-direction sign is
`direction = -1` if `((sceneRotationX + π/2) / π) mod 2 > 1` and `+1`
otherwise; at `sceneRotationX = 0` it is `+1`, and at `sceneRotationX = π`
the modulo expression evaluates to `3/2 > 1`, selecting `-1`. -/
theorem C7_direction_rule :
    direction 0 = 1 ∧
    jsMod ((Real.pi + Real.pi / 2) / Real.pi) 2 = 3 / 2 ∧
    ((3 : ℝ) / 2 > 1) ∧
    direction Real.pi = -1 :=
  ⟨direction_zero, by rw [pi_arg_three_halves]; exact jsMod_three_halves,
   by norm_num, direction_pi⟩

/-- Claim C8: the Parameter Generator is a pure function of the three picked
seeds — two runs of `createDefaults` that pick the same seed triple produce
the same `(spikeDetail, spikeLength, palette)` — and every generated
`spikeDetail` lies in `[1.35, 40]` and every generated `spikeLength` lies in
`[1.0, 1.4]`. -/
theorem C8_param_generator (lib : RandomLib) (P : List Palette)
    (d d' : SketchData) (st st' : RState)
    (h : pickedSeeds lib st = pickedSeeds lib st') :
    ((createDefaults lib P d st).1.spikeDetail = (createDefaults lib P d' st').1.spikeDetail ∧
     (createDefaults lib P d st).1.spikeLength = (createDefaults lib P d' st').1.spikeLength ∧
     (createDefaults lib P d st).1.palette = (createDefaults lib P d' st').1.palette) ∧
    (1.35 ≤ (createDefaults lib P d st).1.spikeDetail ∧
      (createDefaults lib P d st).1.spikeDetail ≤ 40) ∧
    (1 ≤ (createDefaults lib P d st).1.spikeLength ∧
      (createDefaults lib P d st).1.spikeLength ≤ 1.4) := by
  have h0 := lib.value_nonneg (some (pickedSeeds lib st).1) 0
  have h1 := lib.value_lt_one (some (pickedSeeds lib st).1) 0
  have g0 := lib.value_nonneg (some (pickedSeeds lib st).2.1) 0
  have g1 := lib.value_lt_one (some (pickedSeeds lib st).2.1) 0
  refine ⟨⟨?_, ?_, ?_⟩, ⟨?_, ?_⟩, ⟨?_, ?_⟩⟩
  · rw [createDefaults_spikeDetail, createDefaults_spikeDetail, h]
  · rw [createDefaults_spikeLength, createDefaults_spikeLength, h]
  · rw [createDefaults_palette, createDefaults_palette, h]
  · rw [createDefaults_spikeDetail]
    nlinarith
  · rw [createDefaults_spikeDetail]
    nlinarith
  · rw [createDefaults_spikeLength]
    nlinarith
  · rw [createDefaults_spikeLength]
    nlinarith

/-- Claim C8, witness: the theorem applied with the concrete stream
`constLib` at two different incoming stream positions that pick the same
seeds: the drawn `spikeDetail` agrees and lies above `1.35`. -/
theorem C8_witness :
    pickedSeeds constLib ⟨none, 0⟩ = pickedSeeds constLib ⟨none, 5⟩ ∧
    (createDefaults constLib [] initialData ⟨none, 0⟩).1.spikeDetail =
      (createDefaults constLib [] initialData ⟨none, 5⟩).1.spikeDetail ∧
    1.35 ≤ (createDefaults constLib [] initialData ⟨none, 0⟩).1.spikeDetail := by
  have h : pickedSeeds constLib ⟨none, 0⟩ = pickedSeeds constLib ⟨none, 5⟩ := by
    norm_num [pickedSeeds, rngPick, rngRange, rngNext, rngSetSeed, constLib]
  have t := C8_param_generator constLib [] initialData initialData ⟨none, 0⟩ ⟨none, 5⟩ h
  exact ⟨h, t.1.1, t.2.1.1⟩

/-- Claim C9: on a frame where `shouldReset` is clear, the settings record's
`spikeDetail`, `spikeLength` and `palette` are left unchanged by the render
callback (the Parameter Generator is not re-run), and if `shouldUpdate` is
set the mesh is rebuilt with exactly the current values of those three
fields baked in. -/
theorem C9_update_keeps_params (lib : RandomLib) (P : List Palette) (st : SketchState)
    (hR : st.data.shouldReset = false) :
    ((render lib P st).data.spikeDetail = st.data.spikeDetail ∧
     (render lib P st).data.spikeLength = st.data.spikeLength ∧
     (render lib P st).data.palette = st.data.palette) ∧
    (st.data.shouldUpdate = true →
      (render lib P st).mesh =
        some ⟨st.data.palette.getD 0 default, st.data.palette.getD 3 default,
              st.data.spikeDetail, st.data.spikeLength⟩) := by
  cases hU : st.data.shouldUpdate <;> simp [render, createMesh, hR, hU]

/-- Claim C9, witness: the theorem applied at the concrete state `stC9`
(`shouldUpdate` set, `shouldReset` clear): the rebuilt mesh bakes in the
current palette endpoints and spike parameters, and `spikeDetail` is
unchanged. -/
theorem C9_witness :
    stC9.data.shouldReset = false ∧
    (render constLib [] stC9).mesh = some ⟨"a", "d", 2, 1.4⟩ ∧
    (render constLib [] stC9).data.spikeDetail = 2 := by
  have t := C9_update_keeps_params constLib [] stC9 rfl
  refine ⟨rfl, ?_, ?_⟩
  · rw [t.2 rfl]
    rfl
  · rw [t.1.1]
    rfl

/-- Claim C10: after every invocation of the render callback, both
`shouldReset` and `shouldUpdate` are `false`, whatever their values at the
start of the frame — rebuild-request flags never survive the frame. -/
theorem C10_flags_cleared (lib : RandomLib) (P : List Palette) (st : SketchState) :
    (render lib P st).data.shouldReset = false ∧
    (render lib P st).data.shouldUpdate = false := by
  cases hR : st.data.shouldReset <;> cases hU : st.data.shouldUpdate <;>
    simp [render, createMesh, createDefaults, hR, hU]
